import Mathlib

/-!
Shallow embedding of the session-managed streaming correlation layer of
mcp-tools (src/session-manager.ts, src/streaming-executor.ts,
src/http-server-streaming.ts, src/utils/validation.ts), together with
verification of the specification's claims about it.

Conventions of the embedding:
* JavaScript `Date` values are modelled as `Int` milliseconds since the epoch;
  the implicit `Date.now()` reads are made explicit `now : Int` arguments.
* `randomUUID()` calls are made explicit arguments (the fresh identifier is an
  input to the function that the source draws from the RNG).
* A JavaScript `Map<string, V>` is modelled as an association list
  `List (String × V)` with `mapGet` / `mapSet` / `mapDelete` mirroring
  `Map.get` / `Map.set` / `Map.delete` (set replaces an existing key in place,
  otherwise appends; keys stay distinct when every update goes through these).
* `EventEmitter.emit` calls are collected into an explicit output list of
  events; `AbortController.abort()` calls are collected into an output list of
  aborted requests.
* A thrown exception becomes an `Except` error value; since the source checks
  capacity before any mutation, the error branch carries no state change.
-/

/-- Embeds `CorrelatedRequest` from src/session-manager.ts.  The `args` value
is opaque to the core and modelled as a `String`; the `AbortController` is
modelled by reporting aborts in the output of the operations instead. -/
structure CorrelatedRequest where
  sessionId : String
  requestId : String
  correlationId : String
  startTime : Int
  tool : String
  args : String
deriving DecidableEq, Repr

/-- Embeds `SessionConfig` from src/session-manager.ts. -/
structure SessionConfig where
  maxIdleTimeMs : Int
  maxActiveRequests : Nat
  enableEventStore : Bool
deriving DecidableEq, Repr

/-- The `defaultConfig` built in the `SessionManager` constructor:
30 minutes idle time, 10 active requests, no event store. -/
def defaultSessionConfig : SessionConfig :=
  { maxIdleTimeMs := 30 * 60 * 1000
    maxActiveRequests := 10
    enableEventStore := false }

/-- State of a `Session` object (class `Session`, src/session-manager.ts):
its identity, timestamps, the `activeRequests` map, the `requestHistory`
array and the configuration. -/
structure Session where
  id : String
  createdAt : Int
  lastActivity : Int
  activeRequests : List (String × CorrelatedRequest)
  requestHistory : List CorrelatedRequest
  config : SessionConfig
deriving DecidableEq, Repr

/-- `Map.get`: first binding of the key, if any. -/
def mapGet {α : Type} (m : List (String × α)) (k : String) : Option α :=
  match m with
  | [] => none
  | (k', v) :: rest => if k' = k then some v else mapGet rest k

/-- `Map.set`: replace the binding in place when the key is present,
otherwise append a new binding (JavaScript Map insertion order). -/
def mapSet {α : Type} (m : List (String × α)) (k : String) (v : α) :
    List (String × α) :=
  match m with
  | [] => [(k, v)]
  | (k', v') :: rest =>
      if k' = k then (k, v) :: rest else (k', v') :: mapSet rest k v

/-- `Map.delete`: remove the binding of the key, if present. -/
def mapDelete {α : Type} (m : List (String × α)) (k : String) :
    List (String × α) :=
  match m with
  | [] => []
  | (k', v') :: rest =>
      if k' = k then rest else (k', v') :: mapDelete rest k

/-- The events a `Session` emits (`this.emit(...)` calls in
src/session-manager.ts). -/
inductive SessionEvent where
  | requestCreated (r : CorrelatedRequest)
  | requestCompleted (r : CorrelatedRequest)
  | requestCancelled (r : CorrelatedRequest)
  | cleanupDone
deriving DecidableEq, Repr

/-- The error thrown by `Session.createRequest` when the active-request count
has reached the ceiling (the spec's `CapacityExceeded`); it carries the data
interpolated into the thrown message. -/
inductive CreateRequestError where
  | CapacityExceeded (sessionId : String) (maxActiveRequests : Nat)
deriving DecidableEq, Repr

/-- Successful outcome of `Session.createRequest`: the updated session state,
the returned request, and the emitted events. -/
structure CreateRequestOk where
  session : Session
  request : CorrelatedRequest
  events : List SessionEvent
deriving DecidableEq, Repr

/-- Embeds `Session.createRequest` (src/session-manager.ts).  The source
builds the request (with a fresh `requestId` from `randomUUID()`, here the
explicit argument `rid`, and `correlationId` = id + "-" + first 8 chars of
the request id), then throws when `activeRequests.size >= maxActiveRequests`,
and only otherwise runs `activeRequests.set`, `updateActivity` and
`emit('requestCreated')`. -/
def createRequest (s : Session) (tool args rid : String) (now : Int) :
    Except CreateRequestError CreateRequestOk :=
  let request : CorrelatedRequest :=
    { sessionId := s.id
      requestId := rid
      correlationId := s.id ++ "-" ++ rid.take 8
      startTime := now
      tool := tool
      args := args }
  if s.activeRequests.length ≥ s.config.maxActiveRequests then
    .error (.CapacityExceeded s.id s.config.maxActiveRequests)
  else
    .ok { session :=
            { s with
              activeRequests := mapSet s.activeRequests rid request
              lastActivity := now }
          request := request
          events := [.requestCreated request] }

/-- `createRequest` as a state transformer: the thrown error leaves the
session untouched and emits nothing (in the source the capacity check
precedes every mutation), the success branch applies the update. -/
def createRequestTotal (s : Session) (tool args rid : String) (now : Int) :
    Session × List SessionEvent × Option CorrelatedRequest :=
  match createRequest s tool args rid now with
  | .error _ => (s, [], none)
  | .ok ok => (ok.session, ok.events, some ok.request)

/-- Outcome of the void `Session` operations: updated state, emitted events,
and the requests whose `AbortController` was aborted. -/
structure SessionStep where
  session : Session
  events : List SessionEvent
  aborted : List CorrelatedRequest
deriving DecidableEq, Repr

/-- Embeds `Session.completeRequest`: no-op when the id is unknown, otherwise
delete from the active map, push onto history, update activity and emit
`requestCompleted`. -/
def completeRequest (s : Session) (rid : String) (now : Int) : SessionStep :=
  match mapGet s.activeRequests rid with
  | none => { session := s, events := [], aborted := [] }
  | some request =>
      { session :=
          { s with
            activeRequests := mapDelete s.activeRequests rid
            requestHistory := s.requestHistory ++ [request]
            lastActivity := now }
        events := [.requestCompleted request]
        aborted := [] }

/-- Embeds `Session.cancelRequest`: no-op when the id is unknown, otherwise
abort the request's controller, delete from the active map (immediately,
without waiting for the execution), update activity and emit
`requestCancelled`.  The cancelled request is not pushed onto the history. -/
def cancelRequest (s : Session) (rid : String) (now : Int) : SessionStep :=
  match mapGet s.activeRequests rid with
  | none => { session := s, events := [], aborted := [] }
  | some request =>
      { session :=
          { s with
            activeRequests := mapDelete s.activeRequests rid
            lastActivity := now }
        events := [.requestCancelled request]
        aborted := [request] }

/-- Embeds `Session.isIdle`: false while any request is active; otherwise
idle exactly when `Date.now() - lastActivity` is strictly greater than
`maxIdleTimeMs`. -/
def isIdle (s : Session) (now : Int) : Bool :=
  if s.activeRequests.length > 0 then false
  else decide (now - s.lastActivity > s.config.maxIdleTimeMs)

/-- Embeds `Session.cleanup`: abort every active request, clear the map and
emit `cleanup`.  It does not touch `lastActivity` or the history. -/
def sessionCleanup (s : Session) : SessionStep :=
  { session := { s with activeRequests := [] }
    events := [.cleanupDone]
    aborted := s.activeRequests.map Prod.snd }

/-- The `Session` constructor: fresh timestamps, empty maps. -/
def newSession (id : String) (config : SessionConfig) (now : Int) : Session :=
  { id := id
    createdAt := now
    lastActivity := now
    activeRequests := []
    requestHistory := []
    config := config }

/-- The `type` field of an `ExecutionProgress` (src/streaming-executor.ts). -/
inductive ProgressType where
  | stdoutChunk
  | stderrChunk
  | progressMark
  | completeMark
  | errorMark
deriving DecidableEq, Repr

/-- Embeds `ExecutionResult` (src/streaming-executor.ts). -/
structure ExecutionResult where
  success : Bool
  exitCode : Int
  stdout : String
  stderr : String
  executionTime : Int
deriving DecidableEq, Repr

/-- Embeds `ExecutionProgress` (src/streaming-executor.ts).  For a `complete`
progress the source serialises the `ExecutionResult` into the `data` string
with `JSON.stringify`; the embedding carries the result structurally in
`result` instead of re-encoding it as JSON text. -/
structure ExecutionProgress where
  ptype : ProgressType
  data : String
  exitCode : Option Int
  result : Option ExecutionResult
deriving DecidableEq, Repr

/-- The `type` field of a `StreamingResponse` as produced by `emitProgress`:
`'complete'` for a complete progress, `'progress'` for everything else. -/
inductive NotifType where
  | progress
  | complete
deriving DecidableEq, Repr

/-- Embeds `StreamingResponse` (src/session-manager.ts) as built by
`StreamingExecutor.emitProgress`: the correlation triple copied from the
request, the collapsed type, and the payload (`progress`, `tool`, `args`). -/
structure StreamingResponse where
  sessionId : String
  requestId : String
  correlationId : String
  rtype : NotifType
  progress : ExecutionProgress
  tool : String
  args : String
deriving DecidableEq, Repr

/-- Embeds `StreamingExecutor.emitProgress` (src/streaming-executor.ts):
wraps an `ExecutionProgress` into the `StreamingResponse` that is emitted on
the executor's `progress` event bus, tagging it with the request's
correlation triple. -/
def emitProgress (cr : CorrelatedRequest) (p : ExecutionProgress) :
    StreamingResponse :=
  { sessionId := cr.sessionId
    requestId := cr.requestId
    correlationId := cr.correlationId
    rtype := if p.ptype = ProgressType.completeMark then .complete else .progress
    progress := p
    tool := cr.tool
    args := cr.args }

/-- The asynchronous events that drive one `executeStreaming` run
(src/streaming-executor.ts): `data` events on stdout and stderr, the `close`
event (with the exit code, `none` when killed by a signal) and the `error`
event of the child process.  The implicit `Date.now()` read of the close and
error handlers is the explicit `now` argument. -/
inductive ExecEvent where
  | stdoutData (chunk : String)
  | stderrData (chunk : String)
  | closeEvent (exitCode : Option Int) (now : Int)
  | procError (msg : String) (now : Int)
deriving DecidableEq, Repr

/-- Per-run mutable state of `executeStreaming`: the two running size
totals, the two accumulated outputs, and whether `cancelExecution` has been
invoked for this request (modelling the SIGTERM/SIGKILL request). -/
structure ExecState where
  stdoutSize : Nat
  stderrSize : Nat
  stdout : String
  stderr : String
  cancelRequested : Bool
deriving DecidableEq, Repr

/-- Initial state of an `executeStreaming` run. -/
def initExecState : ExecState :=
  { stdoutSize := 0, stderrSize := 0, stdout := "", stderr := ""
    cancelRequested := false }

/-- The `options.maxOutputSize || 10 * 1024 * 1024` resolution: `0` and an
absent value are falsy in JavaScript, so both fall back to the 10 MiB
default. -/
def resolveMaxOutputSize : Option Nat → Nat
  | none => 10 * 1024 * 1024
  | some 0 => 10 * 1024 * 1024
  | some n => n

/-- The `exitCode || -1` coercion of the close handler: `null` is falsy, but
so is `0`, so a zero exit code is also mapped to `-1`. -/
def jsExitCodeOrNeg1 : Option Int → Int
  | none => -1
  | some n => if n = 0 then -1 else n

/-- One event-handler step of `executeStreaming`
(src/streaming-executor.ts, the stdout/stderr `data` handlers and the
`close`/`error` handlers): returns the updated run state and the
`StreamingResponse`s emitted by that handler, in order.  On a data event the
size total is bumped first; if it now exceeds `maxSize` the handler requests
cancellation, emits one error notification and returns without accumulating
the chunk; otherwise it accumulates and emits one chunk notification.  The
close handler builds the `ExecutionResult` (`success` iff the exit code is
`0`, the reported code put through `exitCode || -1`) and emits one complete
notification.  The error handler emits one error notification. -/
def execStep (maxSize : Nat) (cr : CorrelatedRequest) (startTime : Int)
    (st : ExecState) (ev : ExecEvent) : ExecState × List StreamingResponse :=
  match ev with
  | .stdoutData chunk =>
      let newSize := st.stdoutSize + chunk.length
      if newSize > maxSize then
        ({ st with stdoutSize := newSize, cancelRequested := true },
         [emitProgress cr
            { ptype := .errorMark
              data := "Output size exceeded maximum of " ++ toString maxSize
                        ++ " bytes"
              exitCode := none
              result := none }])
      else
        ({ st with stdoutSize := newSize, stdout := st.stdout ++ chunk },
         [emitProgress cr
            { ptype := .stdoutChunk, data := chunk
              exitCode := none, result := none }])
  | .stderrData chunk =>
      let newSize := st.stderrSize + chunk.length
      if newSize > maxSize then
        ({ st with stderrSize := newSize, cancelRequested := true },
         [emitProgress cr
            { ptype := .errorMark
              data := "Error output size exceeded maximum of "
                        ++ toString maxSize ++ " bytes"
              exitCode := none
              result := none }])
      else
        ({ st with stderrSize := newSize, stderr := st.stderr ++ chunk },
         [emitProgress cr
            { ptype := .stderrChunk, data := chunk
              exitCode := none, result := none }])
  | .closeEvent exitCode now =>
      let result : ExecutionResult :=
        { success := exitCode == some 0
          exitCode := jsExitCodeOrNeg1 exitCode
          stdout := st.stdout
          stderr := st.stderr
          executionTime := now - startTime }
      (st,
       [emitProgress cr
          { ptype := .completeMark
            data := ""
            exitCode := some (jsExitCodeOrNeg1 exitCode)
            result := some result }])
  | .procError msg _ =>
      (st,
       [emitProgress cr
          { ptype := .errorMark, data := msg
            exitCode := none, result := none }])

/-- Run `executeStreaming`'s handlers over a whole trace of child-process
events, concatenating the emitted notifications in order. -/
def runExec (maxSize : Nat) (cr : CorrelatedRequest) (startTime : Int) :
    ExecState → List ExecEvent → ExecState × List StreamingResponse
  | st, [] => (st, [])
  | st, ev :: evs =>
      let step := execStep maxSize cr startTime st ev
      let rest := runExec maxSize cr startTime step.1 evs
      (rest.1, step.2 ++ rest.2)

/-- Whether a notification is an `error` notification. -/
def isErrorNotif (r : StreamingResponse) : Bool :=
  r.progress.ptype == ProgressType.errorMark

/-- The notifications that follow the first error notification of a run. -/
def afterFirstError : List StreamingResponse → List StreamingResponse
  | [] => []
  | r :: rs => if isErrorNotif r then rs else afterFirstError rs

/-- The filter of the SSE `progressHandler` installed by `handleSSEStream`
(src/http-server-streaming.ts, lines 382-386) for the channel of one
session: an executor `progress` notification is written to the channel iff
its `sessionId` equals the channel session's id. -/
def progressHandlerRelays (channelSessionId : String)
    (response : StreamingResponse) : Bool :=
  response.sessionId == channelSessionId

/-- The notifications actually written to a session's SSE channel out of a
stream of executor `progress` notifications. -/
def sseChannelWrites (channelSessionId : String)
    (responses : List StreamingResponse) : List StreamingResponse :=
  responses.filter (progressHandlerRelays channelSessionId)

/-- The `Mcp-Session-Id` response header name (src/session-manager.ts). -/
def MCP_SESSION_ID_HEADER : String := "Mcp-Session-Id"

/-- State of the `SessionManager` (src/session-manager.ts): the `sessions`
map. -/
structure SessionManager where
  sessions : List (String × Session)
deriving DecidableEq, Repr

/-- Embeds `SessionManager.createSession`: allocate a session under a fresh
id (the `randomUUID()` made explicit) with the default configuration and
register it. -/
def managerCreateSession (mgr : SessionManager) (freshId : String)
    (now : Int) : SessionManager × Session :=
  let session := newSession freshId defaultSessionConfig now
  ({ sessions := mapSet mgr.sessions freshId session }, session)

/-- Outcome of `handleSessionManagement`: the updated registry, the resolved
session, and the response headers set so far (`reply.header` calls). -/
structure ResolveResult where
  manager : SessionManager
  session : Session
  headers : List (String × String)
deriving DecidableEq, Repr

/-- Embeds `handleSessionManagement` (src/http-server-streaming.ts,
lines 265-297): a supplied id that is found resolves to the existing session
and sets no header; a supplied-but-unknown or absent id creates a fresh
session and sets the `Mcp-Session-Id` header to its id. -/
def handleSessionManagement (mgr : SessionManager)
    (suppliedSessionId : Option String) (freshId : String) (now : Int) :
    ResolveResult :=
  match suppliedSessionId with
  | some sid =>
      match mapGet mgr.sessions sid with
      | some existing =>
          { manager := mgr, session := existing, headers := [] }
      | none =>
          let created := managerCreateSession mgr freshId now
          { manager := created.1
            session := created.2
            headers := [(MCP_SESSION_ID_HEADER, created.2.id)] }
  | none =>
      let created := managerCreateSession mgr freshId now
      { manager := created.1
        session := created.2
        headers := [(MCP_SESSION_ID_HEADER, created.2.id)] }

/-- The `Mcp-Session-Id` headers present on the response of a POST /mcp
call: those set by `handleSessionManagement`, plus the ones set by the
routed method handler —
* `initialize`: the unconditional `reply.header(MCP_SESSION_ID_HEADER, ...)`
  of `handleInitialize` (src/http-server-streaming.ts, line 329);
* `tools/call` with an SSE-accepting client (`acceptsSSE`): the
  `reply.raw.writeHead` of `handleStreamingToolCall`
  (src/http-server-streaming.ts, lines 440-447) carries the session id, but
  only when argument validation passed (`validationOk`; otherwise the
  -32602 error is sent without it) and `session.createRequest` did not
  throw `CapacityExceeded` (the throw propagates to the POST catch before
  `writeHead` runs).
The remaining handlers (`tools/list`, `resources/list`, `prompts/list`,
`ping`, the non-streaming `tools/call` path, unknown methods) set no
session header.  Only the session-id header is tracked here; the streaming
`writeHead` also carries request- and correlation-id headers, which this
claim does not concern. -/
def responseSessionHeaders (mgr : SessionManager)
    (suppliedSessionId : Option String) (freshId : String) (now : Int)
    (method : String) (acceptsSSE validationOk : Bool) :
    List (String × String) :=
  let r := handleSessionManagement mgr suppliedSessionId freshId now
  if method = "initialize" then
    mapSet r.headers MCP_SESSION_ID_HEADER r.session.id
  else if method = "tools/call" ∧ acceptsSSE = true ∧ validationOk = true ∧
      r.session.activeRequests.length <
        r.session.config.maxActiveRequests then
    mapSet r.headers MCP_SESSION_ID_HEADER r.session.id
  else
    r.headers

/-- A JSON-RPC request/response id: string, number or null (`undefined` is
modelled by wrapping in `Option`). -/
inductive JsonId where
  | str (s : String)
  | num (n : Int)
  | null
deriving DecidableEq, Repr

/-- The `id || null` coercion used by `createSuccessResponse` and
`createErrorResponse` (src/http-server-streaming.ts, lines 752-775):
`undefined` and `null` map to `null`, but so do the other falsy ids, the
number `0` and the empty string. -/
def jsIdOrNull : Option JsonId → JsonId
  | none => .null
  | some .null => .null
  | some (.num n) => if n = 0 then .null else .num n
  | some (.str s) => if s = "" then .null else .str s

/-- Payload of an `MCPResponse`: a result or a JSON-RPC error object. -/
inductive RpcPayload where
  | result (text : String)
  | rpcError (code : Int) (message : String)
deriving DecidableEq, Repr

/-- Embeds the `MCPResponse` envelope (src/http-server-streaming.ts). -/
structure MCPResponse where
  jsonrpc : String
  id : JsonId
  payload : RpcPayload
deriving DecidableEq, Repr

/-- Embeds `createSuccessResponse` (src/http-server-streaming.ts,
line 752). -/
def createSuccessResponse (id : Option JsonId) (text : String) :
    MCPResponse :=
  { jsonrpc := "2.0", id := jsIdOrNull id, payload := .result text }

/-- Embeds `createErrorResponse` (src/http-server-streaming.ts,
line 760). -/
def createErrorResponse (id : Option JsonId) (code : Int) (message : String) :
    MCPResponse :=
  { jsonrpc := "2.0", id := jsIdOrNull id, payload := .rpcError code message }

/-- Embeds `validateText` (src/utils/validation.ts) for the `echo` tool:
an absent value and the empty string are falsy, so both fail "Text is
required"; a present string fails when longer than 1000 characters. -/
def validateText : Option String → Bool
  | none => false
  | some t => if t = "" then false else decide (t.length ≤ 1000)

/-- The shapes of a non-streaming `tools/call` as dispatched by
`handleDirectToolCall`: the `echo` tool (with whether `params.arguments` is
an object, and its `text` field), `get_system_info`, one of the five
subprocess-backed tools (with the outcome of its argument validation), or an
unknown tool name. -/
inductive DirectToolCall where
  | echoCall (argsPresent : Bool) (text : Option String)
  | systemInfoCall (argsPresent : Bool)
  | subprocessTool (name : String) (argsValid : Bool)
  | unknownTool (name : String)
deriving DecidableEq, Repr

/-- Embeds `validateToolArguments` (src/utils/validation.ts) restricted to
the call shapes above: absent arguments fail for every tool; `echo` defers
to `validateText`; `get_system_info` has no further checks; the subprocess
tools carry their validation verdict; an unknown tool name fails. -/
def validateDirectToolCall : DirectToolCall → Bool
  | .echoCall false _ => false
  | .echoCall true t => validateText t
  | .systemInfoCall b => b
  | .subprocessTool _ ok => ok
  | .unknownTool _ => false

/-- Embeds `handleDirectToolCall` (src/http-server-streaming.ts,
lines 476-511) composed with `executeToolDirect` (lines 603-624): failed
validation returns one `-32602` error response; `echo` returns one success
response with `Echo: <text>`; `get_system_info` returns one success response
with the serialised system snapshot (the impure `process` reads passed in as
`sysInfo`); a subprocess tool reaches `executeToolDirect`'s default branch,
whose throw is caught and returned as one `-32603` error response.  Every
branch builds its response from `mcpRequest.id`. -/
def handleDirectToolCall (sysInfo : String) (id : Option JsonId)
    (call : DirectToolCall) : MCPResponse :=
  if validateDirectToolCall call then
    match call with
    | .echoCall _ (some t) => createSuccessResponse id ("Echo: " ++ t)
    | .echoCall _ none =>
        createErrorResponse id (-32603)
          "Tool execution failed: Cannot read properties of undefined"
    | .systemInfoCall _ => createSuccessResponse id sysInfo
    | .subprocessTool n _ =>
        createErrorResponse id (-32603)
          ("Tool execution failed: Direct execution not supported for tool: "
            ++ n)
    | .unknownTool n =>
        createErrorResponse id (-32603)
          ("Tool execution failed: Unknown tool: " ++ n)
  else
    createErrorResponse id (-32602) "Validation failed"

/-- A small configuration used by the concrete test fixtures: 1 s idle
timeout, ceiling of 2 concurrent requests. -/
def cfgSmall : SessionConfig :=
  { maxIdleTimeMs := 1000, maxActiveRequests := 2, enableEventStore := false }

/-- Fixture: a fresh session with the default configuration. -/
def sessA : Session := newSession "session-a" defaultSessionConfig 0

/-- Fixture: a second fresh session, distinct from `sessA`. -/
def sessB : Session := newSession "session-b" defaultSessionConfig 0

/-- Fixture: the request `createRequest sessA "echo" "x" "rid-0001" 10`
builds. -/
def reqA : CorrelatedRequest :=
  { sessionId := "session-a"
    requestId := "rid-0001"
    correlationId := "session-a-rid-0001"
    startTime := 10
    tool := "echo"
    args := "x" }

/-- Fixture: the successful outcome of
`createRequest sessA "echo" "x" "rid-0001" 10`. -/
def okA : CreateRequestOk :=
  { session :=
      { sessA with
        activeRequests := [("rid-0001", reqA)]
        lastActivity := 10 }
    request := reqA
    events := [.requestCreated reqA] }

/-- Fixture: two active requests of a session at its capacity ceiling. -/
def reqF1 : CorrelatedRequest :=
  { sessionId := "session-full"
    requestId := "rid-0001"
    correlationId := "session-full-rid-0001"
    startTime := 0
    tool := "echo"
    args := "x" }

/-- Fixture: second active request of the full session. -/
def reqF2 : CorrelatedRequest :=
  { sessionId := "session-full"
    requestId := "rid-0002"
    correlationId := "session-full-rid-0002"
    startTime := 0
    tool := "echo"
    args := "y" }

/-- Fixture: a session whose active-request count (2) equals its configured
ceiling (`cfgSmall.maxActiveRequests` = 2). -/
def sessFull : Session :=
  { id := "session-full"
    createdAt := 0
    lastActivity := 0
    activeRequests := [("rid-0001", reqF1), ("rid-0002", reqF2)]
    requestHistory := []
    config := cfgSmall }

/-- Fixture: an executor progress payload. -/
def pEx : ExecutionProgress :=
  { ptype := .stdoutChunk, data := "hi", exitCode := none, result := none }

/-- Fixture: a notification belonging to `sessB`, as relayed on its own
channel. -/
def rEx : StreamingResponse :=
  { sessionId := "session-b"
    requestId := "rid-0002"
    correlationId := "session-b-rid-0002"
    rtype := .progress
    progress := pEx
    tool := "echo"
    args := "y" }

/-- Fixture: an event trace in which the first stdout chunk (6 bytes)
exceeds a 4-byte output bound and the SIGTERM-ed process then closes. -/
def c4trace : List ExecEvent :=
  [ExecEvent.stdoutData "hello!", ExecEvent.closeEvent none 100]

/-- Fixture: the event trace of an `echo hello` run completing naturally
with status code 0 at time 42. -/
def c5trace : List ExecEvent :=
  [ExecEvent.stdoutData "hello\n", ExecEvent.closeEvent (some 0) 42]

/-- Fixture: a session with no active requests, last active at time 0,
with a 1000 ms idle timeout. -/
def sessIdle : Session := newSession "session-idle" cfgSmall 0

/-- Fixture: a session known to the registry under the id `sess-abc`,
created at time 7. -/
def sessKnown : Session := newSession "sess-abc" defaultSessionConfig 7

/-- Fixture: a registry holding exactly `sessKnown`. -/
def mgrEx : SessionManager := { sessions := [("sess-abc", sessKnown)] }

theorem mapGet_mapSet_self {α : Type} (m : List (String × α)) (k : String)
    (v : α) : mapGet (mapSet m k v) k = some v := by
  induction m with
  | nil => simp [mapSet, mapGet]
  | cons hd tl ih =>
      obtain ⟨k', v'⟩ := hd
      by_cases h : k' = k
      · simp [mapSet, mapGet, h]
      · simp [mapSet, mapGet, h, ih]

theorem mapSet_length_le {α : Type} (m : List (String × α)) (k : String)
    (v : α) : (mapSet m k v).length ≤ m.length + 1 := by
  induction m with
  | nil => simp [mapSet]
  | cons hd tl ih =>
      obtain ⟨k', v'⟩ := hd
      by_cases h : k' = k
      · simp [mapSet, h]
      · simp only [mapSet, if_neg h, List.length_cons]
        omega

theorem mapDelete_length_le {α : Type} (m : List (String × α)) (k : String) :
    (mapDelete m k).length ≤ m.length := by
  induction m with
  | nil => simp [mapDelete]
  | cons hd tl ih =>
      obtain ⟨k', v'⟩ := hd
      by_cases h : k' = k
      · simp [mapDelete, h]
      · simp only [mapDelete, if_neg h, List.length_cons]
        omega

theorem mapGet_eq_none_of_not_mem {α : Type} (m : List (String × α))
    (k : String) (h : k ∉ m.map Prod.fst) : mapGet m k = none := by
  induction m with
  | nil => rfl
  | cons hd tl ih =>
      obtain ⟨k', v'⟩ := hd
      simp only [List.map_cons, List.mem_cons, not_or] at h
      have hne : k' ≠ k := fun hk => h.1 hk.symm
      simp [mapGet, hne, ih h.2]

theorem mapGet_mapDelete_self {α : Type} (m : List (String × α)) (k : String)
    (hnd : (m.map Prod.fst).Nodup) : mapGet (mapDelete m k) k = none := by
  induction m with
  | nil => rfl
  | cons hd tl ih =>
      obtain ⟨k', v'⟩ := hd
      simp only [List.map_cons, List.nodup_cons] at hnd
      by_cases h : k' = k
      · subst h
        simpa [mapDelete] using mapGet_eq_none_of_not_mem tl k' hnd.1
      · simp [mapDelete, mapGet, h, ih hnd.2]

theorem createRequest_error_of_full (s : Session) (tool args rid : String)
    (now : Int) (h : s.config.maxActiveRequests ≤ s.activeRequests.length) :
    createRequest s tool args rid now =
      .error (.CapacityExceeded s.id s.config.maxActiveRequests) := by
  simp only [createRequest]
  split
  · rfl
  · next hc => exact absurd h hc

theorem createRequest_ok_request (s : Session) (tool args rid : String)
    (now : Int) (ok : CreateRequestOk)
    (hok : createRequest s tool args rid now = .ok ok) :
    ok.request =
      { sessionId := s.id
        requestId := rid
        correlationId := s.id ++ "-" ++ rid.take 8
        startTime := now
        tool := tool
        args := args } ∧
    ok.session =
      { s with
        activeRequests := mapSet s.activeRequests rid ok.request
        lastActivity := now } ∧
    ok.events = [SessionEvent.requestCreated ok.request] ∧
    s.activeRequests.length < s.config.maxActiveRequests := by
  simp only [createRequest] at hok
  split at hok
  · simp at hok
  · next hc =>
      injection hok with h
      subst h
      exact ⟨rfl, rfl, rfl, by omega⟩



/-- C2: for every session whose active-request count already equals (or
exceeds) the configured ceiling, `createRequest` fails with the
`CapacityExceeded` error — the request is neither queued nor silently
dropped; for every session strictly under the ceiling, `createRequest`
inserts the new request into the active map, updates last-activity, emits
`requestCreated` and returns the request. -/
theorem C2_createRequest_capacity (s : Session) (tool args rid : String)
    (now : Int) :
    (s.config.maxActiveRequests ≤ s.activeRequests.length →
      createRequest s tool args rid now =
        .error (.CapacityExceeded s.id s.config.maxActiveRequests)) ∧
    (s.activeRequests.length < s.config.maxActiveRequests →
      ∃ ok : CreateRequestOk,
        createRequest s tool args rid now = .ok ok ∧
        ok.request.sessionId = s.id ∧
        ok.request.requestId = rid ∧
        ok.request.tool = tool ∧
        ok.request.args = args ∧
        ok.session.activeRequests = mapSet s.activeRequests rid ok.request ∧
        mapGet ok.session.activeRequests rid = some ok.request ∧
        ok.session.lastActivity = now ∧
        ok.session.requestHistory = s.requestHistory ∧
        ok.events = [SessionEvent.requestCreated ok.request]) := by
  constructor
  · intro h
    exact createRequest_error_of_full s tool args rid now h
  · intro h
    have hne : ¬ (s.activeRequests.length ≥ s.config.maxActiveRequests) := by
      omega
    have hok : createRequest s tool args rid now = .ok
        { session :=
            { s with
              activeRequests := mapSet s.activeRequests rid
                { sessionId := s.id, requestId := rid
                  correlationId := s.id ++ "-" ++ rid.take 8
                  startTime := now, tool := tool, args := args }
              lastActivity := now }
          request :=
            { sessionId := s.id, requestId := rid
              correlationId := s.id ++ "-" ++ rid.take 8
              startTime := now, tool := tool, args := args }
          events :=
            [.requestCreated
              { sessionId := s.id, requestId := rid
                correlationId := s.id ++ "-" ++ rid.take 8
                startTime := now, tool := tool, args := args }] } := by
      simp only [createRequest]
      rw [if_neg hne]
    exact ⟨_, hok, rfl, rfl, rfl, rfl, rfl, mapGet_mapSet_self _ _ _,
      rfl, rfl, rfl⟩

/-- Witness for C2 at concrete inputs: `sessFull` sits exactly at its
ceiling of 2 and the next `createRequest` fails with `CapacityExceeded`;
`sessA` is strictly under its ceiling and `createRequest` succeeds with all
the stated effects. -/
theorem C2_createRequest_capacity_witness :
    (sessFull.config.maxActiveRequests ≤ sessFull.activeRequests.length ∧
      createRequest sessFull "echo" "z" "rid-0003" 5 =
        .error (.CapacityExceeded sessFull.id
                  sessFull.config.maxActiveRequests)) ∧
    (sessA.activeRequests.length < sessA.config.maxActiveRequests ∧
      ∃ ok : CreateRequestOk,
        createRequest sessA "echo" "x" "rid-0001" 10 = .ok ok ∧
        ok.request.sessionId = sessA.id ∧
        ok.request.requestId = "rid-0001" ∧
        ok.request.tool = "echo" ∧
        ok.request.args = "x" ∧
        ok.session.activeRequests =
          mapSet sessA.activeRequests "rid-0001" ok.request ∧
        mapGet ok.session.activeRequests "rid-0001" = some ok.request ∧
        ok.session.lastActivity = 10 ∧
        ok.session.requestHistory = sessA.requestHistory ∧
        ok.events = [SessionEvent.requestCreated ok.request]) :=
  ⟨⟨by decide,
    (C2_createRequest_capacity sessFull "echo" "z" "rid-0003" 5).1
      (by decide)⟩,
   ⟨by decide,
    (C2_createRequest_capacity sessA "echo" "x" "rid-0001" 10).2
      (by decide)⟩⟩

/-- C10: when `createRequest` fails because the session is at its
concurrency ceiling, the session state is entirely unchanged — the thrown
`CapacityExceeded` precedes the `set`, `updateActivity` and `emit`
statements, so the active map, the history and last-activity keep their
previous values and no `requestCreated` event is emitted. -/
theorem C10_capacity_failure_no_mutation (s : Session)
    (tool args rid : String) (now : Int)
    (h : s.config.maxActiveRequests ≤ s.activeRequests.length) :
    createRequest s tool args rid now =
      .error (.CapacityExceeded s.id s.config.maxActiveRequests) ∧
    createRequestTotal s tool args rid now = (s, [], none) := by
  have he := createRequest_error_of_full s tool args rid now h
  exact ⟨he, by simp [createRequestTotal, he]⟩

/-- Witness for C10: the at-ceiling session `sessFull` is returned untouched
together with an empty event list. -/
theorem C10_capacity_failure_no_mutation_witness :
    sessFull.config.maxActiveRequests ≤ sessFull.activeRequests.length ∧
    (createRequest sessFull "echo" "z" "rid-0003" 5 =
        .error (.CapacityExceeded sessFull.id
                  sessFull.config.maxActiveRequests) ∧
      createRequestTotal sessFull "echo" "z" "rid-0003" 5 =
        (sessFull, [], none)) :=
  ⟨by decide,
   C10_capacity_failure_no_mutation sessFull "echo" "z" "rid-0003" 5
     (by decide)⟩

/-- C3: the active-request map never grows beyond the configured ceiling:
a fresh session starts empty, and every session operation — `createRequest`
(which refuses to insert at the ceiling), `completeRequest`, `cancelRequest`
and `cleanup` — preserves `activeRequests.length ≤ maxActiveRequests`. -/
theorem C3_active_request_bound (s : Session)
    (h : s.activeRequests.length ≤ s.config.maxActiveRequests)
    (tool args rid rid2 rid3 idStr : String) (cfg : SessionConfig)
    (now now2 now3 now4 : Int) (ok : CreateRequestOk) :
    (newSession idStr cfg now4).activeRequests.length ≤
      cfg.maxActiveRequests ∧
    (createRequest s tool args rid now = .ok ok →
      ok.session.activeRequests.length ≤
        ok.session.config.maxActiveRequests) ∧
    (completeRequest s rid2 now2).session.activeRequests.length ≤
      (completeRequest s rid2 now2).session.config.maxActiveRequests ∧
    (cancelRequest s rid3 now3).session.activeRequests.length ≤
      (cancelRequest s rid3 now3).session.config.maxActiveRequests ∧
    (sessionCleanup s).session.activeRequests.length ≤
      (sessionCleanup s).session.config.maxActiveRequests := by
  refine ⟨by simp [newSession], ?_, ?_, ?_, by simp [sessionCleanup]⟩
  · intro hok
    obtain ⟨-, hsess, -, hlt⟩ :=
      createRequest_ok_request s tool args rid now ok hok
    rw [hsess]
    have hle := mapSet_length_le s.activeRequests rid ok.request
    simp only []
    omega
  · cases hget : mapGet s.activeRequests rid2 with
    | none => simpa [completeRequest, hget] using h
    | some r =>
        have hd := mapDelete_length_le s.activeRequests rid2
        simp only [completeRequest, hget]
        omega
  · cases hget : mapGet s.activeRequests rid3 with
    | none => simpa [cancelRequest, hget] using h
    | some r =>
        have hd := mapDelete_length_le s.activeRequests rid3
        simp only [cancelRequest, hget]
        omega

/-- Witness for C3 at concrete inputs: starting from `sessA` (0 ≤ 10), the
bound holds after a successful `createRequest` and after each of the other
operations. -/
theorem C3_active_request_bound_witness :
    sessA.activeRequests.length ≤ sessA.config.maxActiveRequests ∧
    createRequest sessA "echo" "x" "rid-0001" 10 = .ok okA ∧
    ((newSession "session-w" cfgSmall 0).activeRequests.length ≤
        cfgSmall.maxActiveRequests ∧
      okA.session.activeRequests.length ≤
        okA.session.config.maxActiveRequests ∧
      (completeRequest sessA "rid-0001" 20).session.activeRequests.length ≤
        (completeRequest sessA "rid-0001" 20).session.config.maxActiveRequests ∧
      (cancelRequest sessA "rid-0001" 30).session.activeRequests.length ≤
        (cancelRequest sessA "rid-0001" 30).session.config.maxActiveRequests ∧
      (sessionCleanup sessA).session.activeRequests.length ≤
        (sessionCleanup sessA).session.config.maxActiveRequests) := by
  have h := C3_active_request_bound sessA (by decide) "echo" "x" "rid-0001"
    "rid-0001" "rid-0001" "session-w" cfgSmall 10 20 30 0 okA
  exact ⟨by decide, rfl, h.1, h.2.1 rfl, h.2.2.1, h.2.2.2.1, h.2.2.2.2⟩

/-- C6 counterexample: `sessIdle` has an empty active-request map and, at
`now = 1000`, the elapsed time since last activity (1000 ms) is equal to —
hence at least — the configured idle timeout (1000 ms), so the claim's
"greater than or equal" reading makes the session idle; yet `isIdle` uses a
strict comparison and returns `false`. -/
theorem C6_isIdle_counterexample :
    sessIdle.activeRequests.length = 0 ∧
    (1000 : Int) - sessIdle.lastActivity ≥ sessIdle.config.maxIdleTimeMs ∧
    isIdle sessIdle 1000 = false := by decide

/-- C6 amended: `isIdle()` returns true iff the active-request map is empty
AND the elapsed time since last activity is strictly greater than the
configured idle timeout; in particular `isIdle()` is false whenever at least
one request is active, regardless of elapsed time. -/
theorem C6_isIdle_amended (s : Session) (now : Int) :
    (isIdle s now = true ↔
      s.activeRequests.length = 0 ∧
      now - s.lastActivity > s.config.maxIdleTimeMs) ∧
    (1 ≤ s.activeRequests.length → isIdle s now = false) := by
  constructor
  · rcases Nat.eq_zero_or_pos s.activeRequests.length with h0 | hpos
    · simp [isIdle, h0]
    · have hne : s.activeRequests.length ≠ 0 := by omega
      simp [isIdle, hpos, hne]
  · intro hpos
    have : s.activeRequests.length > 0 := by omega
    simp [isIdle, this]

/-- Witness for C6 amended at concrete inputs: `sessIdle` is idle at
time 1500 (elapsed 1500 > 1000), and `sessFull`, which has two active
requests, is not idle even at a far later time. -/
theorem C6_isIdle_amended_witness :
    (sessIdle.activeRequests.length = 0 ∧
      (1500 : Int) - sessIdle.lastActivity > sessIdle.config.maxIdleTimeMs) ∧
    isIdle sessIdle 1500 = true ∧
    1 ≤ sessFull.activeRequests.length ∧
    isIdle sessFull 999999 = false :=
  ⟨by decide,
   (C6_isIdle_amended sessIdle 1500).1.mpr (by decide),
   by decide,
   (C6_isIdle_amended sessFull 999999).2 (by decide)⟩

/-- C7: `cancelRequest(id)` is a no-op when `id` is not in the active map;
otherwise it aborts the request's cancellation token, removes the request
from the active map immediately (it is gone from the map in the very same
step, without waiting for the execution), updates last-activity, emits
`requestCancelled`, and leaves the history untouched (the cancelled request
is never appended to it).  The key-distinctness hypothesis reflects that a
JavaScript `Map` has unique keys. -/
theorem C7_cancelRequest_behavior (s : Session) (rid : String) (now : Int)
    (hnd : (s.activeRequests.map Prod.fst).Nodup) :
    (mapGet s.activeRequests rid = none →
      cancelRequest s rid now =
        { session := s, events := [], aborted := [] }) ∧
    (∀ r, mapGet s.activeRequests rid = some r →
      (cancelRequest s rid now).aborted = [r] ∧
      (cancelRequest s rid now).session.activeRequests =
        mapDelete s.activeRequests rid ∧
      mapGet (cancelRequest s rid now).session.activeRequests rid = none ∧
      (cancelRequest s rid now).session.lastActivity = now ∧
      (cancelRequest s rid now).events =
        [SessionEvent.requestCancelled r] ∧
      (cancelRequest s rid now).session.requestHistory =
        s.requestHistory) := by
  constructor
  · intro hget
    simp [cancelRequest, hget]
  · intro r hget
    refine ⟨?_, ?_, ?_, ?_, ?_, ?_⟩ <;>
      simp [cancelRequest, hget, mapGet_mapDelete_self _ _ hnd]

/-- Witness for C7 at concrete inputs: on `okA.session` (one active request
`rid-0001`), cancelling an unknown id is a no-op and cancelling `rid-0001`
aborts it, removes it at once, stamps the time, emits the event and leaves
the history empty. -/
theorem C7_cancelRequest_behavior_witness :
    ((okA.session.activeRequests.map Prod.fst).Nodup ∧
      mapGet okA.session.activeRequests "rid-none" = none ∧
      cancelRequest okA.session "rid-none" 20 =
        { session := okA.session, events := [], aborted := [] }) ∧
    (mapGet okA.session.activeRequests "rid-0001" = some reqA ∧
      ((cancelRequest okA.session "rid-0001" 20).aborted = [reqA] ∧
        (cancelRequest okA.session "rid-0001" 20).session.activeRequests =
          mapDelete okA.session.activeRequests "rid-0001" ∧
        mapGet (cancelRequest okA.session "rid-0001" 20).session.activeRequests
          "rid-0001" = none ∧
        (cancelRequest okA.session "rid-0001" 20).session.lastActivity = 20 ∧
        (cancelRequest okA.session "rid-0001" 20).events =
          [SessionEvent.requestCancelled reqA] ∧
        (cancelRequest okA.session "rid-0001" 20).session.requestHistory =
          okA.session.requestHistory)) :=
  ⟨⟨by decide, by decide,
    (C7_cancelRequest_behavior okA.session "rid-none" 20 (by decide)).1
      (by decide)⟩,
   ⟨by decide,
    (C7_cancelRequest_behavior okA.session "rid-0001" 20 (by decide)).2 reqA
      (by decide)⟩⟩

/-- C1: session isolation of the SSE channel.  Everything the channel of
session `B` relays has `B`'s session id, and a notification emitted by the
streaming executor for a request created on a different session `A` is never
written to `B`'s channel: `emitProgress` stamps the notification with the
request's `sessionId`, `createRequest` stamps the request with its session's
id, and the channel's `progressHandler` relays only matching session ids. -/
theorem C1_sse_channel_isolation (A B : Session) (hAB : A.id ≠ B.id)
    (tool args rid : String) (now : Int) (ok : CreateRequestOk)
    (hok : createRequest A tool args rid now = .ok ok)
    (p : ExecutionProgress) (rs : List StreamingResponse)
    (r : StreamingResponse) (hr : r ∈ sseChannelWrites B.id rs) :
    r.sessionId = B.id ∧
    progressHandlerRelays B.id (emitProgress ok.request p) = false ∧
    emitProgress ok.request p ∉ sseChannelWrites B.id rs := by
  have hreq := (createRequest_ok_request A tool args rid now ok hok).1
  have hsid : (emitProgress ok.request p).sessionId = A.id := by
    rw [hreq]
    rfl
  have hrel : progressHandlerRelays B.id r = true :=
    (List.mem_filter.mp hr).2
  have hrelne : progressHandlerRelays B.id (emitProgress ok.request p)
      = false := by
    simp only [progressHandlerRelays, hsid]
    exact beq_false_of_ne hAB
  refine ⟨?_, hrelne, ?_⟩
  · simpa [progressHandlerRelays] using hrel
  · intro hmem
    have := (List.mem_filter.mp hmem).2
    rw [hrelne] at this
    cases this

/-- Witness for C1 at concrete inputs: a request created on `sessA` is not
relayed on `sessB`'s channel, while `rEx` (a notification of `sessB`) is. -/
theorem C1_sse_channel_isolation_witness :
    sessA.id ≠ sessB.id ∧
    createRequest sessA "echo" "x" "rid-0001" 10 = .ok okA ∧
    rEx ∈ sseChannelWrites sessB.id [rEx] ∧
    (rEx.sessionId = sessB.id ∧
      progressHandlerRelays sessB.id (emitProgress okA.request pEx) = false ∧
      emitProgress okA.request pEx ∉ sseChannelWrites sessB.id [rEx]) :=
  ⟨by decide, rfl, by decide,
   C1_sse_channel_isolation sessA sessB (by decide) "echo" "x" "rid-0001" 10
     okA rfl pEx [rEx] rEx (by decide)⟩

/-- C4 counterexample: with a 4-byte output bound, on the trace `c4trace`
the first stdout chunk ("hello!", 6 bytes) pushes the running total over the
bound — termination is requested and exactly one error notification is
emitted — yet a further notification still follows for this request: the
SIGTERM-ed process's `close` event fires and the close handler emits a
`complete` notification.  This falsifies "after which no further
notifications of any kind are emitted for that request". -/
theorem C4_output_limit_counterexample :
    resolveMaxOutputSize (some 4) = 4 ∧
    (runExec 4 reqA 0 initExecState c4trace).1.stdoutSize > 4 ∧
    (runExec 4 reqA 0 initExecState c4trace).1.cancelRequested = true ∧
    ((runExec 4 reqA 0 initExecState c4trace).2.filter isErrorNotif).length
      = 1 ∧
    afterFirstError (runExec 4 reqA 0 initExecState c4trace).2 ≠ [] ∧
    (afterFirstError (runExec 4 reqA 0 initExecState c4trace).2).map
        (fun r => r.rtype) = [NotifType.complete] := by decide

/-- C4 amended: the instant either per-stream running total exceeds
`maxOutputBytes`, termination of the execution is requested and one error
notification is emitted for the offending chunk, which is not accumulated;
however the notifications do not stop there: the terminated process's
`close` event still emits a `complete` notification (and any later
over-limit chunk emits a further error notification). -/
theorem C4_output_limit_amended (maxSize : Nat) (cr : CorrelatedRequest)
    (startTime : Int) (st : ExecState) (chunk chunk2 : String)
    (h1 : maxSize < st.stdoutSize + chunk.length)
    (h2 : maxSize < st.stderrSize + chunk2.length)
    (exitCode : Option Int) (now : Int) :
    ((execStep maxSize cr startTime st (.stdoutData chunk)).2.map
        (fun r => r.progress.ptype) = [ProgressType.errorMark] ∧
      (execStep maxSize cr startTime st
          (.stdoutData chunk)).1.cancelRequested = true ∧
      (execStep maxSize cr startTime st (.stdoutData chunk)).1.stdout =
        st.stdout) ∧
    ((execStep maxSize cr startTime st (.stderrData chunk2)).2.map
        (fun r => r.progress.ptype) = [ProgressType.errorMark] ∧
      (execStep maxSize cr startTime st
          (.stderrData chunk2)).1.cancelRequested = true ∧
      (execStep maxSize cr startTime st (.stderrData chunk2)).1.stderr =
        st.stderr) ∧
    (execStep maxSize cr startTime st (.closeEvent exitCode now)).2.map
        (fun r => r.progress.ptype) = [ProgressType.completeMark] := by
  have hgt1 : st.stdoutSize + chunk.length > maxSize := h1
  have hgt2 : st.stderrSize + chunk2.length > maxSize := h2
  refine ⟨?_, ?_, ?_⟩
  · simp [execStep, emitProgress, if_pos hgt1]
  · simp [execStep, emitProgress, if_pos hgt2]
  · simp [execStep, emitProgress]

/-- Witness for C4 amended at concrete inputs: bound 4, chunks of 6 bytes
on each stream, close with a signal. -/
theorem C4_output_limit_amended_witness :
    (4 : Nat) < initExecState.stdoutSize + ("hello!" : String).length ∧
    (4 : Nat) < initExecState.stderrSize + ("oops!!" : String).length ∧
    (((execStep 4 reqA 0 initExecState (.stdoutData "hello!")).2.map
        (fun r => r.progress.ptype) = [ProgressType.errorMark] ∧
      (execStep 4 reqA 0 initExecState
          (.stdoutData "hello!")).1.cancelRequested = true ∧
      (execStep 4 reqA 0 initExecState (.stdoutData "hello!")).1.stdout =
        initExecState.stdout) ∧
    ((execStep 4 reqA 0 initExecState (.stderrData "oops!!")).2.map
        (fun r => r.progress.ptype) = [ProgressType.errorMark] ∧
      (execStep 4 reqA 0 initExecState
          (.stderrData "oops!!")).1.cancelRequested = true ∧
      (execStep 4 reqA 0 initExecState (.stderrData "oops!!")).1.stderr =
        initExecState.stderr) ∧
    (execStep 4 reqA 0 initExecState (.closeEvent none 100)).2.map
        (fun r => r.progress.ptype) = [ProgressType.completeMark]) :=
  ⟨by decide, by decide,
   C4_output_limit_amended 4 reqA 0 initExecState "hello!" "oops!!"
     (by decide) (by decide) none 100⟩

/-- C5 (code bug): an execution completing naturally with status code 0
(the `echo hello` scenario, trace `c5trace`) emits exactly one `complete`
notification whose result carries `success = true` and the full accumulated
output — but the reported exit code is `-1`, not the process's status
code 0: the close handler computes `exitCode || -1`, and `0` is falsy in
JavaScript, contradicting the close handler's own `success: exitCode === 0`
right above it and the spec's "complete notification with status 0". -/
theorem C5_natural_completion_exit_code :
    resolveMaxOutputSize none = 10485760 ∧
    (runExec 10485760 reqA 0 initExecState c5trace).2.map
        (fun r => (r.rtype, r.progress.ptype, r.progress.exitCode)) =
      [(NotifType.progress, ProgressType.stdoutChunk, none),
       (NotifType.complete, ProgressType.completeMark, some (-1))] ∧
    (runExec 10485760 reqA 0 initExecState c5trace).2.filterMap
        (fun r => r.progress.result) =
      [{ success := true, exitCode := -1, stdout := "hello\n", stderr := ""
         executionTime := 42 }] ∧
    jsExitCodeOrNeg1 (some 0) = -1 := by decide

/-- C8 counterexample: a `tools/list` call that supplies the known id
`sess-abc` resolves to the existing session `sessKnown` (same identity and
creation timestamp), yet the response carries no `Mcp-Session-Id` header at
all — even for an SSE-accepting client with valid arguments, since neither
`handleSessionManagement`'s reuse branch nor the `tools/list` handler sets
it.  This falsifies "in every case the resolved session's id is echoed on
the response". -/
theorem C8_session_echo_counterexample :
    (handleSessionManagement mgrEx (some "sess-abc") "fresh-1" 99).session
      = sessKnown ∧
    ((handleSessionManagement mgrEx
        (some "sess-abc") "fresh-1" 99).session).createdAt
      = sessKnown.createdAt ∧
    responseSessionHeaders mgrEx (some "sess-abc") "fresh-1" 99 "tools/list"
      true true = [] := by decide

/-- C8 amended: a supplied session id that is known resolves to the existing
session (same identity, hence same creation timestamp) and leaves the
registry unchanged; a supplied-but-unknown or absent session id causes a
fresh session to be created; the resolved session's id is echoed on the
response whenever a new session was created, on every `initialize` call,
and on every streaming `tools/call` that passes validation and is under the
capacity ceiling — but for a reused session on the remaining methods
(e.g. `tools/list`) the id is not echoed. -/
theorem C8_session_resolution_amended (mgr : SessionManager)
    (sid fid : String) (now : Int) (s : Session) (method : String)
    (acceptsSSE validationOk : Bool) :
    (mapGet mgr.sessions sid = some s →
      (handleSessionManagement mgr (some sid) fid now).session = s ∧
      (handleSessionManagement mgr (some sid) fid now).manager = mgr ∧
      (handleSessionManagement mgr (some sid) fid now).headers = []) ∧
    (mapGet mgr.sessions sid = none →
      (handleSessionManagement mgr (some sid) fid now).session =
        newSession fid defaultSessionConfig now ∧
      mapGet (handleSessionManagement mgr (some sid) fid now).headers
        MCP_SESSION_ID_HEADER = some fid) ∧
    ((handleSessionManagement mgr none fid now).session =
        newSession fid defaultSessionConfig now ∧
      mapGet (handleSessionManagement mgr none fid now).headers
        MCP_SESSION_ID_HEADER = some fid) ∧
    (mapGet (responseSessionHeaders mgr (some sid) fid now "initialize"
          acceptsSSE validationOk)
        MCP_SESSION_ID_HEADER =
      some (handleSessionManagement mgr (some sid) fid now).session.id) ∧
    (validationOk = true →
      (handleSessionManagement mgr
          (some sid) fid now).session.activeRequests.length <
        (handleSessionManagement mgr
          (some sid) fid now).session.config.maxActiveRequests →
      mapGet (responseSessionHeaders mgr (some sid) fid now "tools/call"
          true validationOk)
        MCP_SESSION_ID_HEADER =
      some (handleSessionManagement mgr (some sid) fid now).session.id) ∧
    (mapGet mgr.sessions sid = some s → method ≠ "initialize" →
      method ≠ "tools/call" →
      responseSessionHeaders mgr (some sid) fid now method acceptsSSE
        validationOk = []) := by
  refine ⟨?_, ?_, ?_, ?_, ?_, ?_⟩
  · intro hget
    simp [handleSessionManagement, hget]
  · intro hget
    simp [handleSessionManagement, hget, managerCreateSession, mapGet,
      MCP_SESSION_ID_HEADER, newSession]
  · simp [handleSessionManagement, managerCreateSession, mapGet,
      MCP_SESSION_ID_HEADER, newSession]
  · simp [responseSessionHeaders, mapGet_mapSet_self]
  · intro hval hcap
    simp [responseSessionHeaders, hval, hcap, mapGet_mapSet_self]
  · intro hget hni hnt
    simp [responseSessionHeaders, handleSessionManagement, hget, hni, hnt]

/-- Witness for C8 amended at concrete inputs: the known id `sess-abc` is
reused without an echo on `tools/list`, its id is echoed on `initialize`
and on a valid, under-capacity streaming `tools/call`, and the unknown id
`sess-new` makes a fresh session whose id `fresh-2` is echoed. -/
theorem C8_session_resolution_amended_witness :
    mapGet mgrEx.sessions "sess-abc" = some sessKnown ∧
    (handleSessionManagement mgrEx (some "sess-abc") "fresh-1" 99).session
      = sessKnown ∧
    responseSessionHeaders mgrEx (some "sess-abc") "fresh-1" 99 "tools/list"
      true true = [] ∧
    mapGet (responseSessionHeaders mgrEx (some "sess-abc") "fresh-1" 99
        "initialize" true true)
      MCP_SESSION_ID_HEADER =
      some (handleSessionManagement mgrEx
        (some "sess-abc") "fresh-1" 99).session.id ∧
    (handleSessionManagement mgrEx
        (some "sess-abc") "fresh-1" 99).session.activeRequests.length <
      (handleSessionManagement mgrEx
        (some "sess-abc") "fresh-1" 99).session.config.maxActiveRequests ∧
    mapGet (responseSessionHeaders mgrEx (some "sess-abc") "fresh-1" 99
        "tools/call" true true)
      MCP_SESSION_ID_HEADER =
      some (handleSessionManagement mgrEx
        (some "sess-abc") "fresh-1" 99).session.id ∧
    mapGet mgrEx.sessions "sess-new" = none ∧
    mapGet ((handleSessionManagement mgrEx
        (some "sess-new") "fresh-2" 99).headers)
      MCP_SESSION_ID_HEADER = some "fresh-2" := by
  have h1 := C8_session_resolution_amended mgrEx "sess-abc" "fresh-1" 99
    sessKnown "tools/list" true true
  have h2 := C8_session_resolution_amended mgrEx "sess-new" "fresh-2" 99
    sessKnown "tools/list" true true
  exact ⟨by decide, (h1.1 (by decide)).1,
    h1.2.2.2.2.2 (by decide) (by decide) (by decide),
    h1.2.2.2.1,
    by decide,
    h1.2.2.2.2.1 rfl (by decide),
    by decide,
    (h2.2.1 (by decide)).2⟩

/-- C9 (code bug): a non-streaming `tools/call` always yields exactly one
JSON-RPC response (the embedding returns a single `MCPResponse`), but its id
does not equal the request id for every valid JSON-RPC id: for the falsy
id `0`, `createSuccessResponse`'s `id || null` coercion replaces `0` with
`null`, so the `echo` call below answers with `id = null` instead of
`id = 0`. -/
theorem C9_response_id_zero :
    validateDirectToolCall (.echoCall true (some "hi")) = true ∧
    handleDirectToolCall "" (some (JsonId.num 0))
        (.echoCall true (some "hi")) =
      { jsonrpc := "2.0", id := JsonId.null
        payload := .result "Echo: hi" } ∧
    JsonId.null ≠ JsonId.num 0 ∧
    handleDirectToolCall "" (some (JsonId.num 7))
        (.echoCall true (some "hi")) =
      { jsonrpc := "2.0", id := JsonId.num 7
        payload := .result "Echo: hi" } := by decide
